import Mathlib

/-!
Verification of the session/dispatch core of the Telegram bot repository
(`bot.py`, `cloudflare_ai.py`).  Pure functions of the source are embedded
directly; the two HTTP calls (`requests.post` in `ask_cloudflare_ai` and
`generate_image`) are abstracted by an explicit outcome parameter describing
what the network returned, and the mutable module-level dictionaries
`user_histories` / `user_settings` become an explicit `BotState` value that
the handlers thread through.
-/

namespace Bot

/-- Conversation roles as used in the Python message dicts. -/
inductive Role where
  | user
  | assistant
  | system
  deriving DecidableEq, Repr

/-- One history entry, mirroring the dicts
`\x7b"role": ..., "content": ...\x7d` appended at bot.py lines 352-355. -/
structure Turn where
  role : Role
  content : String
  deriving DecidableEq, Repr

/-- bot.py line 37. -/
def MAX_HISTORY_LENGTH : Nat := 50

/-- bot.py line 38 (Telegram message length limit). -/
def MAX_MESSAGE_LENGTH : Nat := 4096

/-- Python `str.lower()`: per-character lowercasing of the character
sequence (agrees with Python on ASCII text). -/
def pyLower (s : String) : String := String.mk (s.data.map Char.toLower)

/-- Python `str.startswith(pre)`: the character sequence of `pre` is a
prefix of that of `s`. -/
def pyStartsWith (s pre : String) : Bool := pre.data.isPrefixOf s.data

/-- One entry of `MODEL_CONFIGS` (cloudflare_ai.py lines 22-48). -/
structure ModelConfig where
  url : String
  context : Int
  payload_type : String
  deriving DecidableEq, Repr

/-- The f-string URL scheme of cloudflare_ai.py lines 24-44, with the
`CF_ACCOUNT_ID` environment value passed explicitly. -/
def cfRunUrl (acc model : String) : String :=
  "https://api.cloudflare.com/client/v4/accounts/" ++ acc ++ "/ai/run/" ++ model

/-- The "llama3" entry of `MODEL_CONFIGS` (cloudflare_ai.py lines 23-27);
named separately because it is the fallback value of
`MODEL_CONFIGS.get(model, MODEL_CONFIGS["llama3"])`. -/
def llama3Config (acc : String) : ModelConfig :=
  ⟨cfRunUrl acc "@cf/meta/llama-3-8b-instruct", 8000, "messages"⟩

/-- cloudflare_ai.py lines 22-48: the model configuration dict, as an
association list keyed by model name. -/
def MODEL_CONFIGS (acc : String) : List (String × ModelConfig) :=
  [("llama3", llama3Config acc),
   ("qwancoder", ⟨cfRunUrl acc "@cf/qwen/qwen2.5-coder-32b-instruct", 32768, "messages"⟩),
   ("bart_summarizer", ⟨cfRunUrl acc "@cf/facebook/bart-large-cnn", 1024, "input_text"⟩),
   ("whisper_stt", ⟨cfRunUrl acc "@cf/openai/whisper-large-v3-turbo", 4000, "audio"⟩),
   ("image_captioning", ⟨cfRunUrl acc "@cf/llava/llava-1.5-7b-hf", 2048, "image"⟩)]

/-- cloudflare_ai.py line 65:
`MODEL_CONFIGS.get(model, MODEL_CONFIGS["llama3"])`. -/
def modelConfigsGet (acc model : String) : ModelConfig :=
  ((MODEL_CONFIGS acc).lookup model).getD (llama3Config acc)

/-- cloudflare_ai.py lines 51-58: task-to-model dict lookup with `.lower()`
applied to the key and default "llama3". -/
def select_model_by_task (task : String) : String :=
  let t := pyLower task
  if t = "chat" then "llama3"
  else if t = "code" then "qwancoder"
  else if t = "summary" then "bart_summarizer"
  else if t = "speech_to_text" then "whisper_stt"
  else if t = "image_to_text" then "image_captioning"
  else "llama3"

/-- The result dicts returned by `ask_cloudflare_ai` / `generate_image`:
`\x7b"type": ..., "data": ..., "message"?: ...\x7d`.  The `type` field is the
string the Python code compares against ("text" / "image"); `message` is the
optional caption key. -/
structure InferenceResult where
  type : String
  data : String
  message : Option String := none
  deriving DecidableEq, Repr

/-- What `res.json()` yielded for the chat envelope of cloudflare_ai.py
lines 91-92: either parsing raised (malformed body), or a JSON object whose
optional "result" field optionally holds a "response" string
(`data.get("result", \x7b\x7d).get("response", "No response.")`). -/
inductive ChatBody where
  | malformed (msg : String)
  | parsed (result : Option (Option String))
  deriving DecidableEq, Repr

/-- Abstract outcome of the single `requests.post` in `ask_cloudflare_ai`:
either the transport raised, or a response with an HTTP status code, the
string of the `HTTPError` that `raise_for_status()` would raise for it, and
the body. -/
inductive GatewayOutcome where
  | transportError (msg : String)
  | httpResponse (status : Nat) (statusMsg : String) (body : ChatBody)
  deriving DecidableEq, Repr

/-- `requests.Response.raise_for_status()` raises exactly for 4xx and 5xx
status codes. -/
def raiseForStatus (status : Nat) : Bool :=
  400 ≤ status && status < 600

/-- cloudflare_ai.py lines 89-95: POST, `raise_for_status`, envelope parse,
with every exception caught and turned into `\x7b"type": "text",
"data": f"Error: \x7be\x7d"\x7d`.  Shared by the "messages" and "input_text"
branches, which differ only in the payload they send. -/
def postAndParse (oc : GatewayOutcome) : InferenceResult :=
  match oc with
  | .transportError m => ⟨"text", "Error: " ++ m, none⟩
  | .httpResponse s sm b =>
      if raiseForStatus s then ⟨"text", "Error: " ++ sm, none⟩
      else
        match b with
        | .malformed m => ⟨"text", "Error: " ++ m, none⟩
        | .parsed r => ⟨"text", (r.getD none).getD "No response.", none⟩

/-- cloudflare_ai.py lines 61-95: `ask_cloudflare_ai`.  The branch on the
selected profile's `payload_type` is taken verbatim; the payload built in the
"messages" branch is modeled by `ask_chat_payload` below, and the network by
the `oc` parameter (the result of the call does not otherwise depend on the
payload).  The unused Python `parameters` argument only merges extra keys into
the payload and is omitted. -/
def ask_cloudflare_ai (prompt : String) (history : List Turn) (model acc : String)
    (oc : GatewayOutcome) : InferenceResult :=
  let model_info := modelConfigsGet acc model
  let payload_type := model_info.payload_type
  if payload_type = "messages" then postAndParse oc
  else if payload_type = "input_text" then postAndParse oc
  else if payload_type = "audio" then
    ⟨"text", "Use transcribe_audio() for audio input.", none⟩
  else if payload_type = "image" then
    ⟨"text", "Use image_to_text() for image input.", none⟩
  else ⟨"text", "Unsupported payload type: " ++ payload_type, none⟩

/-- Body outcome of the image-generation POST (cloudflare_ai.py lines
102-106): `res.json()` raised, or a JSON object with an optional
"image_base64" field. -/
inductive ImageBody where
  | malformed (msg : String)
  | parsed (image_base64 : Option String)
  deriving DecidableEq, Repr

/-- Abstract outcome of the `requests.post` in `generate_image`. -/
inductive ImageOutcome where
  | transportError (msg : String)
  | httpResponse (status : Nat) (statusMsg : String) (body : ImageBody)
  deriving DecidableEq, Repr

/-- A single-quote character as a string (used in Python string values). -/
def apos : String := String.singleton (Char.ofNat 39)

/-- cloudflare_ai.py lines 98-116: `generate_image`.  Note the Python
falsy test `if not image_data` treats both a missing field and an empty
string as "no image". -/
def generate_image (prompt : String) (oc : ImageOutcome) : InferenceResult :=
  match oc with
  | .transportError m => ⟨"text", "Image generation error: " ++ m, none⟩
  | .httpResponse s sm b =>
      if raiseForStatus s then ⟨"text", "Image generation error: " ++ sm, none⟩
      else
        match b with
        | .malformed m => ⟨"text", "Image generation error: " ++ m, none⟩
        | .parsed none => ⟨"text", "No image returned from API.", none⟩
        | .parsed (some img) =>
            if img = "" then ⟨"text", "No image returned from API.", none⟩
            else
              ⟨"image", "data:image/png;base64," ++ img,
                some ("Here" ++ apos ++ "s your image for: " ++ apos ++ prompt ++ apos)⟩

/-- The failure conditions for `generate_image`: transport error, HTTP error
status, malformed body, or missing/empty image field. -/
def image_failure : ImageOutcome → Bool
  | .transportError _ => true
  | .httpResponse _ _ (.malformed _) => true
  | .httpResponse _ _ (.parsed none) => true
  | .httpResponse s _ (.parsed (some img)) => raiseForStatus s || (img == "")

/-- The quote character Python `repr` prefers for strings. -/
def pyQuoteChar : Char := Char.ofNat 39

/-- Escaping of one character inside a Python `repr` string literal quoted
with `q` (backslash, the quote itself, and the common control characters;
other characters are rendered literally). -/
def pyEscape (q : Char) (c : Char) : String :=
  if c = '\\' then "\\\\"
  else if c = q then "\\" ++ String.singleton q
  else if c = '\n' then "\\n"
  else if c = '\r' then "\\r"
  else if c = '\t' then "\\t"
  else String.singleton c

/-- Python `repr` of a string: single-quoted, except double-quoted when the
string contains a single quote but no double quote. -/
def pyReprStr (s : String) : String :=
  let q := if s.contains pyQuoteChar ∧ ¬ s.contains '"' then '"' else pyQuoteChar
  String.singleton q ++ String.join (s.data.map (pyEscape q)) ++ String.singleton q

/-- The string value of the "role" key. -/
def pyRoleStr : Role → String
  | .user => "user"
  | .assistant => "assistant"
  | .system => "system"

/-- Python `str` of one message dict
`\x7b"role": r, "content": c\x7d` (insertion order role, content). -/
def pyReprTurn (t : Turn) : String :=
  "\x7b" ++ pyReprStr "role" ++ ": " ++ pyReprStr (pyRoleStr t.role) ++ ", "
    ++ pyReprStr "content" ++ ": " ++ pyReprStr t.content ++ "\x7d"

/-- Python `str` of the message list (`str(messages)` at cloudflare_ai.py
line 73). -/
def pyReprMessages (msgs : List Turn) : String :=
  "[" ++ String.intercalate ", " (msgs.map pyReprTurn) ++ "]"

/-- The payload built by the "messages" branch (cloudflare_ai.py lines
71-74), without the `**parameters` merge. -/
structure ChatPayload where
  messages : List Turn
  max_tokens : Int
  deriving DecidableEq, Repr

/-- cloudflare_ai.py lines 71-74:
`messages = history + [\x7b"role": "user", "content": prompt\x7d]` and
`max_tokens = min(1024, context_limit - len(str(messages)) // 4 - 100)`. -/
def ask_chat_payload (prompt : String) (history : List Turn) (context_limit : Int) :
    ChatPayload :=
  let messages := history ++ [⟨Role.user, prompt⟩]
  ⟨messages, min 1024 (context_limit - (((pyReprMessages messages).length / 4 : Nat) : Int) - 100)⟩

/-- Modelled from the spec: `estimatedSize` "approximates token count from
character length" — the character length of the serialized message list,
integer-divided by 4. -/
def spec_estimated_size (msgs : List Turn) : Nat :=
  (pyReprMessages msgs).length / 4

/-- Modelled from the spec: the outgoing size cap
`min(fixedCeiling, contextBudget - estimatedSize(messages) - safetyMargin)`
with fixedCeiling 1024 and safetyMargin 100. -/
def spec_outgoing_cap (contextBudget : Int) (msgs : List Turn) : Int :=
  min 1024 (contextBudget - ((spec_estimated_size msgs : Nat) : Int) - 100)

/-- The in-memory module state of bot.py: `user_histories` (line 33) and
`user_settings` (line 34).  Every write to `user_settings[uid]` in the source
touches only the single key "mode", so the per-user settings dict is modeled
as the optional stored mode string. -/
structure BotState where
  histories : Nat → Option (List Turn)
  modes : Nat → Option String

/-- `user_histories[uid] = h`. -/
def setHistory (st : BotState) (uid : Nat) (h : List Turn) : BotState :=
  { st with histories := fun u => if u = uid then some h else st.histories u }

/-- bot.py line 333: `user_settings.get(user_id, \x7b\x7d).get('mode', 'chat')`. -/
def getMode (st : BotState) (uid : Nat) : String :=
  (st.modes uid).getD "chat"

/-- The state at process start: both dicts empty. -/
def initState : BotState :=
  ⟨fun _ => none, fun _ => none⟩

/-- One `save_to_db` row (bot.py lines 215-227); db errors are caught inside
`save_to_db`, so logging is modeled as a pure append. -/
structure LogEntry where
  user_id : Nat
  role : String
  message : String
  type : String
  deriving DecidableEq, Repr

/-- An outbound Telegram message: `reply_text` or `reply_photo`. -/
inductive OutMsg where
  | text (s : String)
  | photo (data : String) (caption : String)
  deriving DecidableEq, Repr

/-- The chunking loop of bot.py lines 42-44:
`for i in range(0, len(text), MAX_MESSAGE_LENGTH): chunk = text[i:i+MAX]`,
as structural recursion (each iteration takes the next `MAX` characters). -/
def splitChunks (l : List Char) : List (List Char) :=
  if h : l = [] then []
  else l.take MAX_MESSAGE_LENGTH :: splitChunks (l.drop MAX_MESSAGE_LENGTH)
termination_by l.length
decreasing_by
  simp only [List.length_drop, MAX_MESSAGE_LENGTH]
  have := List.length_pos.mpr h
  omega

/-- bot.py lines 40-44: `split_long_message` sends one text message per
chunk, in order. -/
def split_long_message (text : String) : List OutMsg :=
  (splitChunks text.data).map (fun c => OutMsg.text (String.mk c))

/-- The arguments of one `ask_cloudflare_ai(...)` invocation made by the
dispatcher (prompt, history, model). -/
structure GatewayCall where
  prompt : String
  history : List Turn
  model : String
  deriving DecidableEq, Repr

/-- Everything observable about one `handle_message` run: the outbound
messages, the new module state, the `save_to_db` rows written, and (as
instrumentation) the gateway call made and the result it returned. -/
structure HandleOutcome where
  replies : List OutMsg
  state : BotState
  logs : List LogEntry
  call : Option GatewayCall
  response : Option InferenceResult

/-- bot.py lines 328-330: `if len(h) > MAX_HISTORY_LENGTH: h = h[-MAX:]`.
When the guard fails the slice would be the identity, so the guarded rewrite
equals this unconditional truncation. -/
def truncHist (h : List Turn) : List Turn :=
  if MAX_HISTORY_LENGTH < h.length then h.drop (h.length - MAX_HISTORY_LENGTH) else h

/-- bot.py lines 315-360: `handle_message` for a text message.  `gw` stands
for the `ask_cloudflare_ai` call (instantiated with `liveGateway` for the
integrated system).  Lines 322-323 create the history entry if absent and
lines 329-330 truncate it; the net dict state in every case is the entry set
to `truncHist` of its previous value (see `truncHist`).  In the image branch,
`reply_photo` uses `response.get("message", "Generated image")` but the
subsequent `save_to_db` indexes `response["message"]`, which raises `KeyError`
when the key is absent — caught by the handler's `except`, which then sends
the fixed apology text (after the photo was already sent) and skips the
assistant log row. -/
def handle_message (gw : GatewayCall → InferenceResult) (st : BotState) (uid : Nat)
    (message_text : String) : HandleOutcome :=
  let h0 := (st.histories uid).getD []
  let userLog : LogEntry := ⟨uid, "user", message_text, "text"⟩
  let h1 := truncHist h0
  let st2 := setHistory st uid h1
  let mode := getMode st uid
  let call : GatewayCall :=
    if mode = "chat" then ⟨message_text, h1, "llama3"⟩
    else if mode = "image" ∧ pyStartsWith (pyLower message_text) "generate" = true then
      ⟨message_text, [], "stable_diffusion"⟩
    else ⟨message_text, [], "llama3"⟩
  let response := gw call
  if response.type = "image" then
    match response.message with
    | some m =>
        ⟨[OutMsg.photo response.data m], st2,
          [userLog, ⟨uid, "assistant", m, "image"⟩], some call, some response⟩
    | none =>
        ⟨[OutMsg.photo response.data "Generated image",
          OutMsg.text "❌ Sorry, something went wrong. Please try again."], st2,
          [userLog], some call, some response⟩
  else
    ⟨split_long_message response.data,
      setHistory st2 uid (h1 ++ [⟨Role.user, message_text⟩, ⟨Role.assistant, response.data⟩]),
      [userLog, ⟨uid, "assistant", response.data, "text"⟩], some call, some response⟩

/-- bot.py lines 263-275: `clear_chat` sets `user_histories[uid] = []`,
replies with a confirmation, and logs a system row.  `user_settings` is not
touched. -/
def clear_chat (st : BotState) (uid : Nat) : BotState × List OutMsg × List LogEntry :=
  (setHistory st uid [],
   [OutMsg.text "✨ Chat history cleared!"],
   [⟨uid, "system", "Chat history cleared", "text"⟩])

/-- The integrated gateway: the dispatcher's `ask_cloudflare_ai(...)` call,
with the network outcome `oc`. -/
def liveGateway (acc : String) (oc : GatewayOutcome) : GatewayCall → InferenceResult :=
  fun c => ask_cloudflare_ai c.prompt c.history c.model acc oc

/-- A successful chat-completion outcome whose envelope carries reply `a`. -/
def okTextOutcome (a : String) : GatewayOutcome :=
  .httpResponse 200 "" (.parsed (some (some a)))

/-- Scenario driver: a sequence of dispatched text messages from user `uid`,
each answered successfully by the gateway with the paired reply string. -/
def runChats (acc : String) (uid : Nat) (msgs : List (String × String)) (st : BotState) :
    BotState :=
  match msgs with
  | [] => st
  | (u, a) :: rest =>
      runChats acc uid rest (handle_message (liveGateway acc (okTextOutcome a)) st uid u).state

/-- The full sequence of turns appended over a run of `runChats`. -/
def allTurns : List (String × String) → List Turn
  | [] => []
  | (u, a) :: rest => ⟨Role.user, u⟩ :: ⟨Role.assistant, a⟩ :: allTurns rest

/-- A state where user 1 has stored mode "chat". -/
def stChatMode : BotState :=
  ⟨fun _ => none, fun u => if u = 1 then some "chat" else none⟩

/-- A state where user 1 has stored mode "image". -/
def stImageMode : BotState :=
  ⟨fun _ => none, fun u => if u = 1 then some "image" else none⟩

/-- A state where user 1 has stored mode "voice" (one of the modes that is
neither "chat" nor "image"). -/
def stVoiceMode : BotState :=
  ⟨fun _ => none, fun u => if u = 1 then some "voice" else none⟩

/-- A gateway stub returning an image-kind result with a caption. -/
def constImageGateway : GatewayCall → InferenceResult :=
  fun _ => ⟨"image", "imgdata", some "cap"⟩

/-- 26 successful chat exchanges. -/
def manyChats : List (String × String) := List.replicate 26 ("hi", "yo")

/-! ## Helper lemmas -/

theorem splitChunks_flatten (l : List Char) : (splitChunks l).flatten = l := by
  rw [splitChunks]
  split
  · simp [*]
  · simp only [List.flatten_cons]
    rw [splitChunks_flatten (l.drop MAX_MESSAGE_LENGTH)]
    exact List.take_append_drop _ l
termination_by l.length
decreasing_by
  rename_i hne
  simp only [List.length_drop, MAX_MESSAGE_LENGTH]
  have := List.length_pos.mpr hne
  omega

theorem splitChunks_le (l : List Char) :
    ∀ c ∈ splitChunks l, c.length ≤ MAX_MESSAGE_LENGTH := by
  rw [splitChunks]
  split
  · intro c hc
    simp at hc
  · intro c hc
    rcases List.mem_cons.mp hc with hc | hc
    · subst hc
      rw [List.length_take]
      exact min_le_left _ _
    · exact splitChunks_le (l.drop MAX_MESSAGE_LENGTH) c hc
termination_by l.length
decreasing_by
  rename_i hne _
  simp only [List.length_drop, MAX_MESSAGE_LENGTH]
  have := List.length_pos.mpr hne
  omega

theorem splitChunks_length (l : List Char) :
    (splitChunks l).length = (l.length + MAX_MESSAGE_LENGTH - 1) / MAX_MESSAGE_LENGTH := by
  rw [splitChunks]
  split
  · rename_i h
    subst h
    simp [MAX_MESSAGE_LENGTH]
  · rename_i h
    have hpos : 0 < l.length := List.length_pos.mpr h
    simp only [List.length_cons]
    rw [splitChunks_length (l.drop MAX_MESSAGE_LENGTH)]
    simp only [List.length_drop, MAX_MESSAGE_LENGTH] at *
    rcases le_or_lt l.length 4096 with hle | hlt
    · have h1 : l.length - 4096 = 0 := by omega
      rw [h1]
      have h3 : l.length + 4096 - 1 = 4096 * 1 + (l.length - 1) := by omega
      rw [h3, Nat.mul_add_div (by omega)]
      have h4 : (l.length - 1) / 4096 = 0 := Nat.div_eq_of_lt (by omega)
      simp [h4]
    · have h3 : l.length + 4096 - 1 = 4096 * 1 + (l.length - 4096 + 4096 - 1) := by omega
      rw [h3, Nat.mul_add_div (by omega)]
      omega
termination_by l.length
decreasing_by
  rename_i hne
  simp only [List.length_drop, MAX_MESSAGE_LENGTH]
  have := List.length_pos.mpr hne
  omega

theorem postAndParse_type (oc : GatewayOutcome) : (postAndParse oc).type = "text" := by
  cases oc with
  | transportError m => rfl
  | httpResponse s sm b =>
      unfold postAndParse
      dsimp only
      split
      · rfl
      · cases b <;> rfl

theorem ask_type_text (prompt : String) (history : List Turn) (model acc : String)
    (oc : GatewayOutcome) :
    (ask_cloudflare_ai prompt history model acc oc).type = "text" := by
  unfold ask_cloudflare_ai
  dsimp only
  split
  · exact postAndParse_type oc
  split
  · exact postAndParse_type oc
  split
  · rfl
  split
  · rfl
  · rfl

theorem postAndParse_httpError (s : Nat) (sm : String) (b : ChatBody)
    (hs : raiseForStatus s = true) :
    postAndParse (.httpResponse s sm b) = ⟨"text", "Error: " ++ sm, none⟩ := by
  simp [postAndParse, hs]

theorem ask_llama3_eq (prompt : String) (history : List Turn) (acc : String)
    (oc : GatewayOutcome) :
    ask_cloudflare_ai prompt history "llama3" acc oc = postAndParse oc := rfl

theorem ask_stable_diffusion_eq (prompt : String) (history : List Turn) (acc : String)
    (oc : GatewayOutcome) :
    ask_cloudflare_ai prompt history "stable_diffusion" acc oc = postAndParse oc := rfl

theorem setHistory_histories_self (st : BotState) (uid : Nat) (h : List Turn) :
    (setHistory st uid h).histories uid = some h := by
  simp [setHistory]

theorem setHistory_modes (st : BotState) (uid : Nat) (h : List Turn) :
    (setHistory st uid h).modes = st.modes := rfl

theorem truncHist_suffix (h : List Turn) : List.IsSuffix (truncHist h) h := by
  unfold truncHist
  split
  · exact List.drop_suffix _ _
  · exact List.suffix_refl h

theorem truncHist_le (h : List Turn) :
    h.length ≤ MAX_HISTORY_LENGTH + 2 → (truncHist h).length ≤ MAX_HISTORY_LENGTH := by
  intro hle
  unfold truncHist
  split
  · rename_i hgt
    simp only [List.length_drop]
    omega
  · rename_i hng
    omega

/-- Characterization of the gateway call the dispatcher makes. -/
theorem handle_message_call_eq (gw : GatewayCall → InferenceResult) (st : BotState)
    (uid : Nat) (t : String) :
    (handle_message gw st uid t).call = some
      (if getMode st uid = "chat" then
        (⟨t, truncHist ((st.histories uid).getD []), "llama3"⟩ : GatewayCall)
      else if getMode st uid = "image" ∧ pyStartsWith (pyLower t) "generate" = true then
        ⟨t, [], "stable_diffusion"⟩
      else ⟨t, [], "llama3"⟩) := by
  unfold handle_message
  dsimp only
  repeat' split
  all_goals rfl

/-- Over the three calls the dispatcher can make, the integrated gateway
behaves as `postAndParse oc` (both "llama3" and "stable_diffusion" resolve to
a "messages"-payload profile). -/
theorem liveGateway_dispatch (acc : String) (oc : GatewayOutcome) (t : String)
    (h : List Turn) (b : Prop) [Decidable b] (b2 : Prop) [Decidable b2] :
    liveGateway acc oc
        (if b then (⟨t, h, "llama3"⟩ : GatewayCall)
         else if b2 then ⟨t, [], "stable_diffusion"⟩
         else ⟨t, [], "llama3"⟩) = postAndParse oc := by
  split
  · rfl
  · split <;> rfl

/-- Full characterization of a `handle_message` run through the integrated
gateway: since `ask_cloudflare_ai` only ever returns text-kind results, the
text branch is always taken. -/
theorem handle_message_live (acc : String) (oc : GatewayOutcome) (st : BotState)
    (uid : Nat) (t : String) :
    (handle_message (liveGateway acc oc) st uid t).replies
        = split_long_message (postAndParse oc).data ∧
    (handle_message (liveGateway acc oc) st uid t).state.histories uid
        = some (truncHist ((st.histories uid).getD [])
            ++ [⟨Role.user, t⟩, ⟨Role.assistant, (postAndParse oc).data⟩]) ∧
    (handle_message (liveGateway acc oc) st uid t).state.modes = st.modes ∧
    (handle_message (liveGateway acc oc) st uid t).response = some (postAndParse oc) ∧
    (handle_message (liveGateway acc oc) st uid t).logs
        = [⟨uid, "user", t, "text"⟩,
           ⟨uid, "assistant", (postAndParse oc).data, "text"⟩] := by
  unfold handle_message
  dsimp only
  rw [liveGateway_dispatch acc oc t (truncHist ((st.histories uid).getD []))]
  rw [postAndParse_type oc]
  rw [if_neg (by decide : ¬ ("text" = "image"))]
  refine ⟨rfl, ?_, rfl, rfl, rfl⟩
  exact setHistory_histories_self _ uid _

theorem runChats_suffix (acc : String) (uid : Nat) :
    ∀ (msgs : List (String × String)) (st : BotState) (pre : List Turn),
      getMode st uid = "chat" →
      List.IsSuffix ((st.histories uid).getD []) pre →
      ((st.histories uid).getD []).length ≤ MAX_HISTORY_LENGTH + 2 →
      List.IsSuffix (((runChats acc uid msgs st).histories uid).getD [])
          (pre ++ allTurns msgs) ∧
      (((runChats acc uid msgs st).histories uid).getD []).length
          ≤ MAX_HISTORY_LENGTH + 2 := by
  intro msgs
  induction msgs with
  | nil =>
      intro st pre hm hs hl
      refine ⟨?_, hl⟩
      simpa [runChats, allTurns] using hs
  | cons p rest ih =>
      obtain ⟨u, a⟩ := p
      intro st pre hm hs hl
      simp only [runChats]
      set st' := (handle_message (liveGateway acc (okTextOutcome a)) st uid u).state with hst
      obtain ⟨_, hhist, hmodes, _, _⟩ := handle_message_live acc (okTextOutcome a) st uid u
      have hdata : (postAndParse (okTextOutcome a)).data = a := rfl
      rw [hdata] at hhist
      have hm' : getMode st' uid = "chat" := by
        unfold getMode at hm ⊢
        rw [hst, hmodes]
        exact hm
      have hh' : (st'.histories uid).getD []
          = truncHist ((st.histories uid).getD [])
            ++ [⟨Role.user, u⟩, ⟨Role.assistant, a⟩] := by
        rw [hst, hhist]
        rfl
      have hsuffix' : List.IsSuffix ((st'.histories uid).getD [])
          (pre ++ [⟨Role.user, u⟩, ⟨Role.assistant, a⟩]) := by
        rw [hh']
        obtain ⟨w, hw⟩ := (truncHist_suffix ((st.histories uid).getD [])).trans hs
        exact ⟨w, by rw [← List.append_assoc, hw]⟩
      have hlen' : ((st'.histories uid).getD []).length ≤ MAX_HISTORY_LENGTH + 2 := by
        rw [hh']
        have htr := truncHist_le _ hl
        simp only [List.length_append, List.length_cons, List.length_nil]
        omega
      have hres := ih st' (pre ++ [⟨Role.user, u⟩, ⟨Role.assistant, a⟩]) hm' hsuffix' hlen'
      have hshape : pre ++ allTurns ((u, a) :: rest)
          = (pre ++ [⟨Role.user, u⟩, ⟨Role.assistant, a⟩]) ++ allTurns rest := by
        simp [allTurns]
      rw [hshape]
      exact hres

/-! ## Claims -/

set_option maxRecDepth 100000 in
/-- C1 counterexample: after 26 successful chat exchanges the stored history
of the user holds 52 entries, exceeding MAX_HISTORY_LENGTH = 50 — the
handler truncates before appending the two fresh turns, so the stated bound
is violated. -/
theorem history_exceeds_fifty_cx :
    MAX_HISTORY_LENGTH <
      (((runChats "acct" 1 manyChats initState).histories 1).getD []).length := by
  decide

/-- C1 (amended): for every user and every sequence of successfully answered
text-message exchanges starting from an empty history in chat mode, the
stored history never exceeds MAX_HISTORY_LENGTH + 2 = 52 entries, and it is
always a suffix of the full appended turn sequence — the retained entries
are the most recently appended ones in their original relative order (FIFO
drop from the front). -/
theorem history_bound_and_fifo_amended (acc : String) (uid : Nat)
    (msgs : List (String × String)) (st0 : BotState)
    (hh : (st0.histories uid).getD [] = [])
    (hm : getMode st0 uid = "chat") :
    (((runChats acc uid msgs st0).histories uid).getD []).length
        ≤ MAX_HISTORY_LENGTH + 2 ∧
    List.IsSuffix (((runChats acc uid msgs st0).histories uid).getD [])
        (allTurns msgs) := by
  have h := runChats_suffix acc uid msgs st0 [] hm
      (by rw [hh]) (by rw [hh]; simp)
  rw [List.nil_append] at h
  exact ⟨h.2, h.1⟩

/-- Witness for `history_bound_and_fifo_amended` on a concrete run. -/
theorem history_bound_and_fifo_amended_w :
    (initState.histories 0).getD [] = [] ∧ getMode initState 0 = "chat" ∧
    ((((runChats "a" 0 [("hi", "yo")] initState).histories 0).getD []).length
        ≤ MAX_HISTORY_LENGTH + 2 ∧
      List.IsSuffix (((runChats "a" 0 [("hi", "yo")] initState).histories 0).getD [])
        (allTurns [("hi", "yo")])) :=
  ⟨rfl, rfl, history_bound_and_fifo_amended "a" 0 [("hi", "yo")] initState rfl rfl⟩

/-- C2: splitting a text of length L yields ceil(L / MAX_MESSAGE_LENGTH)
chunks (written (L + MAX_MESSAGE_LENGTH - 1) / MAX_MESSAGE_LENGTH), each of
length at most MAX_MESSAGE_LENGTH, emitted in order as text messages whose
concatenation is exactly the original text. -/
theorem split_long_message_spec (text : String) :
    (split_long_message text).length
        = (text.length + MAX_MESSAGE_LENGTH - 1) / MAX_MESSAGE_LENGTH ∧
    (∀ c ∈ splitChunks text.data, c.length ≤ MAX_MESSAGE_LENGTH) ∧
    (splitChunks text.data).flatten = text.data ∧
    split_long_message text
        = (splitChunks text.data).map (fun c => OutMsg.text (String.mk c)) := by
  refine ⟨?_, splitChunks_le _, splitChunks_flatten _, rfl⟩
  unfold split_long_message
  rw [List.length_map, splitChunks_length]
  rfl

/-- C3 counterexample: with an empty session and a 500-status gateway
outcome, the dispatcher appends two turns (the user turn and the diagnostic
text) to the session history — the history is not left unchanged. -/
theorem http_error_mutates_history_cx :
    ((handle_message (liveGateway "acct" (.httpResponse 500 "Server Error" (.parsed none)))
        initState 1 "hello").state.histories 1).getD [] ≠ [] := by
  decide

/-- C3 (amended): on a non-2xx (HTTP-error) status the gateway client
converts the failure into a text-kind result "Error: ..." whose content
depends on the error; the dispatcher then treats it as an ordinary text
reply — it splits it into chunks and appends the user turn plus the
diagnostic text to the session history, mutating it. -/
theorem http_error_reply_amended (acc : String) (st : BotState) (uid : Nat)
    (t sm : String) (s : Nat) (b : ChatBody) (hs : raiseForStatus s = true) :
    (handle_message (liveGateway acc (.httpResponse s sm b)) st uid t).replies
        = split_long_message ("Error: " ++ sm) ∧
    (handle_message (liveGateway acc (.httpResponse s sm b)) st uid t).state.histories uid
        = some (truncHist ((st.histories uid).getD [])
            ++ [⟨Role.user, t⟩, ⟨Role.assistant, "Error: " ++ sm⟩]) := by
  obtain ⟨h1, h2, _, _, _⟩ := handle_message_live acc (.httpResponse s sm b) st uid t
  rw [postAndParse_httpError s sm b hs] at h1 h2
  exact ⟨h1, h2⟩

/-- Witness for `http_error_reply_amended` at a concrete error outcome. -/
theorem http_error_reply_amended_w :
    raiseForStatus 500 = true ∧
    ((handle_message (liveGateway "a" (.httpResponse 500 "err" (.parsed none)))
        initState 2 "hi").replies = split_long_message ("Error: " ++ "err") ∧
      (handle_message (liveGateway "a" (.httpResponse 500 "err" (.parsed none)))
          initState 2 "hi").state.histories 2
        = some (truncHist ((initState.histories 2).getD [])
            ++ [⟨Role.user, "hi"⟩, ⟨Role.assistant, "Error: " ++ "err"⟩])) :=
  ⟨by decide, http_error_reply_amended "a" initState 2 "hi" "err" 500 (.parsed none) (by decide)⟩

/-- C4 counterexample: user 1 has stored mode "chat"; the inbound text starts
with the trigger word "generate", yet the dispatcher issues a chat-completion
call (model "llama3", with history) — not the image-generation branch (model
"stable_diffusion").  The trigger is therefore not honored regardless of the
stored mode. -/
theorem generate_in_chat_mode_cx :
    (handle_message (liveGateway "a" (okTextOutcome "ok")) stChatMode 1
        "generate image of a cat").call
      = some ⟨"generate image of a cat", [], "llama3"⟩ ∧
    (handle_message (liveGateway "a" (okTextOutcome "ok")) stChatMode 1
        "generate image of a cat").call
      ≠ some ⟨"generate image of a cat", [], "stable_diffusion"⟩ := by
  constructor <;> decide

/-- C4 (amended): the image-generation trigger is mode-gated, not
mode-independent: only when the stored mode is "image" AND the lowercased
text starts with "generate" does the dispatcher select the image branch
(gateway model "stable_diffusion", empty history) — and in no other case is
that branch taken.  When the stored mode resolves to "chat" the same message
is dispatched as a chat completion with history; under any other mode (for
example "voice" or "analysis"), or in image mode without the trigger, it is
dispatched as an ordinary chat completion without history. -/
theorem generate_trigger_mode_gated_amended (gw : GatewayCall → InferenceResult)
    (st : BotState) (uid : Nat) (t : String) :
    (getMode st uid = "image" → pyStartsWith (pyLower t) "generate" = true →
      (handle_message gw st uid t).call = some ⟨t, [], "stable_diffusion"⟩) ∧
    (getMode st uid = "chat" →
      (handle_message gw st uid t).call
        = some ⟨t, truncHist ((st.histories uid).getD []), "llama3"⟩) ∧
    (getMode st uid ≠ "chat" →
      ¬(getMode st uid = "image" ∧ pyStartsWith (pyLower t) "generate" = true) →
      (handle_message gw st uid t).call = some ⟨t, [], "llama3"⟩) ∧
    (∀ (p : String) (h2 : List Turn),
      (handle_message gw st uid t).call = some ⟨p, h2, "stable_diffusion"⟩ →
      getMode st uid = "image" ∧ pyStartsWith (pyLower t) "generate" = true) := by
  refine ⟨?_, ?_, ?_, ?_⟩
  · intro h1 h2
    rw [handle_message_call_eq]
    rw [if_neg (by rw [h1]; decide), if_pos ⟨h1, h2⟩]
  · intro h1
    rw [handle_message_call_eq, if_pos h1]
  · intro h1 h2
    rw [handle_message_call_eq, if_neg h1, if_neg h2]
  · intro p h2 heq
    rw [handle_message_call_eq] at heq
    by_cases hc : getMode st uid = "chat"
    · rw [if_pos hc] at heq
      simp [GatewayCall.mk.injEq] at heq
    · rw [if_neg hc] at heq
      by_cases hi : getMode st uid = "image" ∧ pyStartsWith (pyLower t) "generate" = true
      · exact hi
      · rw [if_neg hi] at heq
        simp [GatewayCall.mk.injEq] at heq

/-- Witness for `generate_trigger_mode_gated_amended`: exercises the image
branch under mode "image", the chat branch under mode "chat", and the
fallback branch under mode "voice". -/
theorem generate_trigger_mode_gated_amended_w :
    (getMode stImageMode 1 = "image" ∧
      pyStartsWith (pyLower "generate a cat") "generate" = true ∧
      (handle_message constImageGateway stImageMode 1 "generate a cat").call
          = some ⟨"generate a cat", [], "stable_diffusion"⟩) ∧
    (getMode stChatMode 1 = "chat" ∧
      (handle_message constImageGateway stChatMode 1 "hello").call
          = some ⟨"hello", truncHist ((stChatMode.histories 1).getD []), "llama3"⟩) ∧
    (getMode stVoiceMode 1 ≠ "chat" ∧
      ¬(getMode stVoiceMode 1 = "image" ∧
          pyStartsWith (pyLower "generate art") "generate" = true) ∧
      (handle_message constImageGateway stVoiceMode 1 "generate art").call
          = some ⟨"generate art", [], "llama3"⟩) :=
  ⟨⟨rfl, by decide,
      (generate_trigger_mode_gated_amended constImageGateway stImageMode 1
          "generate a cat").1 rfl (by decide)⟩,
   ⟨rfl,
      (generate_trigger_mode_gated_amended constImageGateway stChatMode 1
          "hello").2.1 rfl⟩,
   ⟨by decide, by decide,
      (generate_trigger_mode_gated_amended constImageGateway stVoiceMode 1
          "generate art").2.2.1 (by decide) (by decide)⟩⟩

/-- C5: the gateway client is total and never propagates an exception: every
chat-completion call returns a text-kind result for every network outcome,
and every failing image-generation outcome (transport error, HTTP error
status, malformed body, missing or empty image field) yields a text-kind
result carrying a diagnostic string. -/
theorem gateway_total_text_degrade :
    (∀ (p : String) (h : List Turn) (m acc : String) (oc : GatewayOutcome),
        (ask_cloudflare_ai p h m acc oc).type = "text") ∧
    (∀ (p : String) (oc : ImageOutcome), image_failure oc = true →
        (generate_image p oc).type = "text" ∧
        ((∃ e, (generate_image p oc).data = "Image generation error: " ++ e) ∨
          (generate_image p oc).data = "No image returned from API.")) := by
  constructor
  · exact ask_type_text
  · intro p oc hf
    cases oc with
    | transportError m => exact ⟨rfl, Or.inl ⟨m, rfl⟩⟩
    | httpResponse s sm b =>
        unfold generate_image
        dsimp only
        by_cases hrs : raiseForStatus s = true
        · rw [if_pos hrs]
          exact ⟨rfl, Or.inl ⟨sm, rfl⟩⟩
        · rw [if_neg hrs]
          cases b with
          | malformed m => exact ⟨rfl, Or.inl ⟨m, rfl⟩⟩
          | parsed img =>
              cases img with
              | none => exact ⟨rfl, Or.inr rfl⟩
              | some s2 =>
                  have hempty : s2 = "" := by
                    rw [image_failure, Bool.or_eq_true, beq_iff_eq] at hf
                    rcases hf with hf2 | hf2
                    · exact absurd hf2 hrs
                    · exact hf2
                  dsimp only
                  rw [if_pos hempty]
                  exact ⟨rfl, Or.inr rfl⟩

/-- Witness for `gateway_total_text_degrade` at a transport failure. -/
theorem gateway_total_text_degrade_w :
    (ask_cloudflare_ai "p" [] "llama3" "a" (.transportError "boom")).type = "text" ∧
    image_failure (.transportError "boom") = true ∧
    ((generate_image "p" (.transportError "boom")).type = "text" ∧
      ((∃ e, (generate_image "p" (.transportError "boom")).data
          = "Image generation error: " ++ e) ∨
        (generate_image "p" (.transportError "boom")).data
          = "No image returned from API.")) :=
  ⟨gateway_total_text_degrade.1 "p" [] "llama3" "a" (.transportError "boom"),
    rfl, gateway_total_text_degrade.2 "p" (.transportError "boom") rfl⟩

/-- C6: any task name whose lowercase form is outside the known set maps to
the default chat profile "llama3", and any model name outside the
configuration table resolves to the llama3 profile rather than failing. -/
theorem unknown_task_model_fallback :
    (∀ task : String,
        pyLower task ∉
          (["chat", "code", "summary", "speech_to_text", "image_to_text"] : List String) →
        select_model_by_task task = "llama3") ∧
    (∀ acc model : String,
        model ∉
          (["llama3", "qwancoder", "bart_summarizer", "whisper_stt",
            "image_captioning"] : List String) →
        modelConfigsGet acc model = llama3Config acc) := by
  constructor
  · intro task h
    simp only [List.mem_cons, List.not_mem_nil, or_false, not_or] at h
    obtain ⟨h1, h2, h3, h4, h5⟩ := h
    simp [select_model_by_task, h1, h2, h3, h4, h5]
  · intro acc model h
    simp only [List.mem_cons, List.not_mem_nil, or_false, not_or] at h
    obtain ⟨h1, h2, h3, h4, h5⟩ := h
    have e1 : (model == "llama3") = false := beq_eq_false_iff_ne.mpr h1
    have e2 : (model == "qwancoder") = false := beq_eq_false_iff_ne.mpr h2
    have e3 : (model == "bart_summarizer") = false := beq_eq_false_iff_ne.mpr h3
    have e4 : (model == "whisper_stt") = false := beq_eq_false_iff_ne.mpr h4
    have e5 : (model == "image_captioning") = false := beq_eq_false_iff_ne.mpr h5
    simp [modelConfigsGet, MODEL_CONFIGS, List.lookup, e1, e2, e3, e4, e5]

/-- Witness for `unknown_task_model_fallback` at "Reminder" and
"stable_diffusion". -/
theorem unknown_task_model_fallback_w :
    pyLower "Reminder" ∉
        (["chat", "code", "summary", "speech_to_text", "image_to_text"] : List String) ∧
    select_model_by_task "Reminder" = "llama3" ∧
    ("stable_diffusion" ∉
        (["llama3", "qwancoder", "bart_summarizer", "whisper_stt",
          "image_captioning"] : List String)) ∧
    modelConfigsGet "acct" "stable_diffusion" = llama3Config "acct" :=
  ⟨by decide, unknown_task_model_fallback.1 "Reminder" (by decide), by decide,
    unknown_task_model_fallback.2 "acct" "stable_diffusion" (by decide)⟩

/-- C7: the outgoing max_tokens cap built for a chat-style call equals the
spec formula min(1024, contextBudget - estimatedSize(messages) - 100) where
estimatedSize is the character length of the serialized message list,
integer-divided by 4, and the message list is the prior history followed by
the new user turn. -/
theorem chat_cap_matches_spec (ctx : Int) (history : List Turn) (prompt : String) :
    (ask_chat_payload prompt history ctx).messages = history ++ [⟨Role.user, prompt⟩] ∧
    (ask_chat_payload prompt history ctx).max_tokens
        = spec_outgoing_cap ctx (history ++ [⟨Role.user, prompt⟩]) :=
  ⟨rfl, rfl⟩

/-- C8: clearing a user's chat resets that user's history to empty and
leaves the stored mode mapping untouched, so a subsequent mode lookup
returns the same mode as before the clear. -/
theorem clear_resets_history_preserves_mode (st : BotState) (uid : Nat) :
    (clear_chat st uid).1.histories uid = some [] ∧
    (clear_chat st uid).1.modes = st.modes ∧
    getMode (clear_chat st uid).1 uid = getMode st uid := by
  refine ⟨?_, rfl, rfl⟩
  exact setHistory_histories_self st uid []

/-- C9 counterexample: when the gateway returns an image-kind result for a
dispatched text message, the handler writes TWO log rows, not one — the
inbound user text is logged unconditionally before dispatch (bot.py line
326), so the user turn IS separately logged on this path. -/
theorem image_path_logs_user_cx :
    (handle_message constImageGateway stChatMode 1 "draw a cat").logs.length ≠ 1 ∧
    (⟨1, "user", "draw a cat", "text"⟩ : LogEntry)
      ∈ (handle_message constImageGateway stChatMode 1 "draw a cat").logs := by
  constructor <;> decide

/-- C9 (amended): on an image-kind result with a caption the dispatcher
emits a single outbound image message with that caption, leaves the history
unextended (only truncated), and writes one assistant log row of type
"image" — in addition to the user inbound row already written
unconditionally before dispatch, for two log rows in total. -/
theorem image_reply_and_logs_amended (st : BotState) (uid : Nat) (t : String)
    (resp : InferenceResult) (cap : String) (ht : resp.type = "image")
    (hc : resp.message = some cap) :
    (handle_message (fun _ => resp) st uid t).replies = [OutMsg.photo resp.data cap] ∧
    (handle_message (fun _ => resp) st uid t).logs
        = [⟨uid, "user", t, "text"⟩, ⟨uid, "assistant", cap, "image"⟩] ∧
    (handle_message (fun _ => resp) st uid t).state.histories uid
        = some (truncHist ((st.histories uid).getD [])) := by
  unfold handle_message
  dsimp only
  rw [ht, if_pos rfl, hc]
  dsimp only
  refine ⟨rfl, rfl, ?_⟩
  exact setHistory_histories_self st uid _

/-- Witness for `image_reply_and_logs_amended` at a concrete image result. -/
theorem image_reply_and_logs_amended_w :
    (⟨"image", "d", some "c"⟩ : InferenceResult).type = "image" ∧
    (⟨"image", "d", some "c"⟩ : InferenceResult).message = some "c" ∧
    ((handle_message (fun _ => (⟨"image", "d", some "c"⟩ : InferenceResult))
        initState 3 "x").replies = [OutMsg.photo "d" "c"] ∧
      (handle_message (fun _ => (⟨"image", "d", some "c"⟩ : InferenceResult))
          initState 3 "x").logs
        = [⟨3, "user", "x", "text"⟩, ⟨3, "assistant", "c", "image"⟩] ∧
      (handle_message (fun _ => (⟨"image", "d", some "c"⟩ : InferenceResult))
          initState 3 "x").state.histories 3
        = some (truncHist ((initState.histories 3).getD []))) :=
  ⟨rfl, rfl,
    image_reply_and_logs_amended initState 3 "x" ⟨"image", "d", some "c"⟩ "c" rfl rfl⟩

/-- C10: in image mode, a text message starting with "generate" is
dispatched with model name "stable_diffusion"; that key is absent from
MODEL_CONFIGS, so the call falls back to the default llama3 chat profile and
always yields a text-kind result — hence the dispatcher's image-reply branch
is never taken on this path, every reply is a text message, and
`generate_image` is never invoked. -/
theorem stable_diffusion_fallback_no_image (acc : String) (st : BotState) (uid : Nat)
    (t : String) (oc : GatewayOutcome) (h1 : getMode st uid = "image")
    (h2 : pyStartsWith (pyLower t) "generate" = true) :
    (handle_message (liveGateway acc oc) st uid t).call
        = some ⟨t, [], "stable_diffusion"⟩ ∧
    (MODEL_CONFIGS acc).lookup "stable_diffusion" = none ∧
    modelConfigsGet acc "stable_diffusion" = llama3Config acc ∧
    (handle_message (liveGateway acc oc) st uid t).response = some (postAndParse oc) ∧
    (postAndParse oc).type = "text" ∧
    (∀ m ∈ (handle_message (liveGateway acc oc) st uid t).replies,
        ∃ s, m = OutMsg.text s) := by
  obtain ⟨hr, _, _, hresp, _⟩ := handle_message_live acc oc st uid t
  refine ⟨?_, rfl, rfl, hresp, postAndParse_type oc, ?_⟩
  · rw [handle_message_call_eq]
    rw [if_neg (by rw [h1]; decide), if_pos ⟨h1, h2⟩]
  · rw [hr]
    intro m hm
    unfold split_long_message at hm
    obtain ⟨c, _, hc⟩ := List.mem_map.mp hm
    exact ⟨String.mk c, hc.symm⟩

/-- Witness for `stable_diffusion_fallback_no_image` at a concrete state. -/
theorem stable_diffusion_fallback_no_image_w :
    getMode stImageMode 1 = "image" ∧
    pyStartsWith (pyLower "generate a sunset") "generate" = true ∧
    ((handle_message (liveGateway "a" (okTextOutcome "ok")) stImageMode 1
        "generate a sunset").call = some ⟨"generate a sunset", [], "stable_diffusion"⟩ ∧
      (MODEL_CONFIGS "a").lookup "stable_diffusion" = none ∧
      modelConfigsGet "a" "stable_diffusion" = llama3Config "a" ∧
      (handle_message (liveGateway "a" (okTextOutcome "ok")) stImageMode 1
          "generate a sunset").response = some (postAndParse (okTextOutcome "ok")) ∧
      (postAndParse (okTextOutcome "ok")).type = "text" ∧
      (∀ m ∈ (handle_message (liveGateway "a" (okTextOutcome "ok")) stImageMode 1
          "generate a sunset").replies, ∃ s, m = OutMsg.text s)) :=
  ⟨rfl, by decide,
    stable_diffusion_fallback_no_image "a" stImageMode 1 "generate a sunset"
      (okTextOutcome "ok") rfl (by decide)⟩

end Bot
